import Mathlib

/-!
Verification of the wireguard-tunnel JNI bridge (src/rust/src/lib.rs).

Shallow embedding: the bridge's pure control flow is translated into Lean
functions; the external collaborators (filesystem, WARP provisioner, the
wireguard-netstack crate's tunnel and TCP primitives, JNI marshalling) are
modelled as explicit environment records of oracle functions, since they are
outside the core under specification.  Machine integers: the connection-handle
counter is an `AtomicI64` whose `fetch_add` wraps on overflow; it is modelled
as `Int` with explicit two's-complement wrapping (`wrap64`).
-/

namespace WireguardTunnel

/-- Two's-complement wrap of an unbounded integer into the i64 range
`[-2^63, 2^63)`; models Rust `AtomicI64::fetch_add`, which wraps on
overflow.  (9223372036854775808 = 2^63, 18446744073709551616 = 2^64.) -/
def wrap64 (x : Int) : Int :=
  (x + 9223372036854775808) % 18446744073709551616 - 9223372036854775808

/-- Opaque token for `warp_wireguard_gen::WarpCredentials` (external crate;
its contents are opaque to the bridge beyond serialization). -/
structure WarpCredentials where
  token : Nat
deriving DecidableEq

/-- Model of `wireguard_netstack::WireGuardConfig` (external crate).  The
bridge only ever touches the `mtu` field (`Option<u16>` in Rust); every other
field is abstracted as the opaque payload `rest`. -/
structure WireGuardConfig where
  mtu : Option Nat
  rest : Nat
deriving DecidableEq

/-- Mirror of the `TunnelError` enum of src/rust/src/lib.rs (thiserror
payloads become `String`/`Int`). -/
inductive TunnelError where
  | NotInitialized
  | AlreadyRunning
  | NotReady
  | WarpRegistration (s : String)
  | CredentialPersistence (s : String)
  | ConnectionFailed (s : String)
  | InvalidHandle (h : Int)
  | Io (s : String)
  | Timeout
deriving DecidableEq

/-- The `#[error(...)]` display strings of `TunnelError` (used by the JNI
layer when formatting exception messages with `format!`). -/
def TunnelError.msg : TunnelError → String
  | .NotInitialized => "Tunnel not initialized"
  | .AlreadyRunning => "Tunnel already running"
  | .NotReady => "Tunnel not ready"
  | .WarpRegistration s => "WARP registration failed: " ++ s
  | .CredentialPersistence s => "Credential persistence failed: " ++ s
  | .ConnectionFailed s => "Connection failed: " ++ s
  | .InvalidHandle h => "Invalid handle: " ++ toString h
  | .Io s => "IO error: " ++ s
  | .Timeout => "Timeout"

/-- Filesystem oracle for one fixed credential path: the outcomes of the
`std::fs`/`serde_json` calls made by `load_credentials` / `save_credentials`
on that path.  Errors are the collaborators' display strings. -/
structure Fs where
  /-- `Path::exists()` on the credential path. -/
  pathExists : Bool
  /-- `fs::read_to_string(cred_path)`. -/
  readToString : Except String String
  /-- `serde_json::from_str::<WarpCredentials>`. -/
  parseCreds : String → Except String WarpCredentials
  /-- `path.parent()` (`none` when the path has no parent component). -/
  parentDir : Option Unit
  /-- `fs::create_dir_all(parent)`. -/
  createDirAll : Except String Unit
  /-- `serde_json::to_string_pretty(credentials)`. -/
  serializeCreds : WarpCredentials → Except String String
  /-- `fs::write(path, content)`. -/
  writeFile : String → Except String Unit

/-- `load_credentials` (src/rust/src/lib.rs lines 53-58): read the file, then
parse it; both failures become `CredentialPersistence`. -/
def load_credentials (fs : Fs) : Except TunnelError WarpCredentials :=
  match fs.readToString with
  | .error e => .error (.CredentialPersistence ("Failed to read: " ++ e))
  | .ok content =>
    match fs.parseCreds content with
    | .error e => .error (.CredentialPersistence ("Failed to parse: " ++ e))
    | .ok creds => .ok creds

/-- `save_credentials` (lines 60-76): ensure the parent directory exists,
serialize, write; every failure becomes `CredentialPersistence`. -/
def save_credentials (fs : Fs) (credentials : WarpCredentials) :
    Except TunnelError Unit :=
  match fs.parentDir with
  | some _ =>
    match fs.createDirAll with
    | .error e => .error (.CredentialPersistence ("Failed to create dir: " ++ e))
    | .ok _ =>
      match fs.serializeCreds credentials with
      | .error e => .error (.CredentialPersistence ("Failed to serialize: " ++ e))
      | .ok content =>
        match fs.writeFile content with
        | .error e => .error (.CredentialPersistence ("Failed to write: " ++ e))
        | .ok _ => .ok ()
  | none =>
    match fs.serializeCreds credentials with
    | .error e => .error (.CredentialPersistence ("Failed to serialize: " ++ e))
    | .ok content =>
      match fs.writeFile content with
      | .error e => .error (.CredentialPersistence ("Failed to write: " ++ e))
      | .ok _ => .ok ()

/-- `const WIREGUARD_MTU: u16 = 1420` (line 82). -/
def WIREGUARD_MTU : Nat := 1420

/-- Provisioner oracle: the outcomes of the `warp_wireguard_gen` calls
(`get_config` with existing credentials, `register` with default options). -/
structure Provisioner where
  get_config : WarpCredentials → Except String WireGuardConfig
  register : Except String (WireGuardConfig × WarpCredentials)

/-- The registration fall-through of `load_or_register_warp` (lines 111-125):
`register(RegistrationOptions::default())`, override the MTU, persist the
credentials (propagating a persistence failure), and return the pair. -/
def registerNewDevice (fs : Fs) (prov : Provisioner) :
    Except TunnelError (WireGuardConfig × WarpCredentials) :=
  match prov.register with
  | .error e => .error (.WarpRegistration e)
  | .ok (config, credentials) =>
    let config := { config with mtu := some WIREGUARD_MTU }
    match save_credentials fs credentials with
    | .error e => .error e
    | .ok _ => .ok (config, credentials)

/-- `load_or_register_warp` (lines 84-126).  Load path: if the file exists,
parse it and fetch a fresh config; on full success return it with the MTU
overridden.  Any failure falls through to registration
(`registerNewDevice`). -/
def load_or_register_warp (fs : Fs) (prov : Provisioner) :
    Except TunnelError (WireGuardConfig × WarpCredentials) :=
  let registerPath := registerNewDevice fs prov
  if fs.pathExists then
    match load_credentials fs with
    | .ok credentials =>
      match prov.get_config credentials with
      | .ok config => .ok ({ config with mtu := some WIREGUARD_MTU }, credentials)
      | .error _ => registerPath
    | .error _ => registerPath
  else registerPath

/-- Written from the specification's words alone (the reference point for the
refinement claim about credential acquisition): if a credential file exists
at the path, attempt to parse it; on success, attempt to fetch a fresh
configuration using those credentials and return that pair (MTU forced to
1420); if the file is absent, or parsing fails, or the fetch fails, fall
through to registration, which produces new credentials and a configuration
(MTU forced to 1420) and persists the credentials before returning;
persistence failure after successful registration fails the whole
operation. -/
def credential_acquisition_spec (fs : Fs) (prov : Provisioner) :
    Except TunnelError (WireGuardConfig × WarpCredentials) :=
  let fromRegistration : Except TunnelError (WireGuardConfig × WarpCredentials) :=
    match prov.register with
    | .error e => .error (.WarpRegistration e)
    | .ok (config, credentials) =>
      match save_credentials fs credentials with
      | .error e => .error e
      | .ok _ => .ok ({ config with mtu := some 1420 }, credentials)
  let loadOutcome : Option (WireGuardConfig × WarpCredentials) :=
    if fs.pathExists then
      match load_credentials fs with
      | .ok credentials =>
        match prov.get_config credentials with
        | .ok config => some ({ config with mtu := some 1420 }, credentials)
        | .error _ => none
      | .error _ => none
    else none
  match loadOutcome with
  | some pair => .ok pair
  | none => fromRegistration

/-- Opaque token for `wireguard_netstack::ManagedTunnel`. -/
structure ManagedTunnel where
  id : Nat
deriving DecidableEq

/-- Opaque token for `Arc<wireguard_netstack::NetStack>`. -/
structure NetStack where
  id : Nat
deriving DecidableEq

/-- Opaque token for `Arc<wireguard_netstack::TcpConnection>`. -/
structure TcpConnection where
  id : Nat
deriving DecidableEq

/-- Opaque token for `std::net::SocketAddr`. -/
structure SocketAddr where
  id : Nat
deriving DecidableEq

/-- `ActiveTunnel` (lines 173-177): the managed transport plus the shared
network-stack reference. -/
structure ActiveTunnel where
  tunnel : ManagedTunnel
  netstack : NetStack
deriving DecidableEq

/-- `ConnectionManager` (lines 132-135).  The `RwLock<HashMap<i64, Arc<TcpConnection>>>`
is modelled as an association list with unique keys; `next_handle : AtomicI64`
as an `Int` kept in i64 range by `wrap64`. -/
structure ConnectionManager where
  connections : List (Int × TcpConnection)
  nextHandle : Int
deriving DecidableEq

/-- `ConnectionManager::new` (lines 138-143): empty table, counter at 1. -/
def ConnectionManager.new : ConnectionManager :=
  { connections := [], nextHandle := 1 }

/-- `ConnectionManager::insert` (lines 145-149): `fetch_add(1, SeqCst)`
returns the previous counter value as the handle (the stored counter wraps on
overflow), then stores the connection under that key. -/
def ConnectionManager.insert (m : ConnectionManager) (conn : TcpConnection) :
    Int × ConnectionManager :=
  let handle := m.nextHandle
  (handle,
    { connections := (handle, conn) :: m.connections.filter (fun p => decide (p.1 ≠ handle)),
      nextHandle := wrap64 (m.nextHandle + 1) })

/-- `ConnectionManager::get` (lines 151-153): read-locked lookup. -/
def ConnectionManager.get (m : ConnectionManager) (handle : Int) :
    Option TcpConnection :=
  (m.connections.find? (fun p => decide (p.1 = handle))).map (·.2)

/-- `ConnectionManager::remove` (lines 155-157): write-locked removal,
returning the removed connection if present. -/
def ConnectionManager.remove (m : ConnectionManager) (handle : Int) :
    Option TcpConnection × ConnectionManager :=
  (m.get handle,
    { m with connections := m.connections.filter (fun p => decide (p.1 ≠ handle)) })

/-- `TunnelState` (lines 164-171), as the `jint` codes it is cast to. -/
def TunnelStateStopped : Int := 0
def TunnelStateStarting : Int := 1
def TunnelStateReady : Int := 2
def TunnelStateFailed : Int := 3

/-- The mutable fields of `GlobalState` (lines 183-189); the Tokio runtime
and its handle are pure machinery of the sync/async bridge and carry no
observable state. -/
structure GlobalStateM where
  tunnel : Option ActiveTunnel
  connections : ConnectionManager
deriving DecidableEq

/-- `GlobalState::netstack` (lines 209-215): clone the stack reference out of
the current session, or `NotInitialized`. -/
def GlobalStateM.netstack (st : GlobalStateM) : Except TunnelError NetStack :=
  match st.tunnel with
  | some t => .ok t.netstack
  | none => .error .NotInitialized

/-- External collaborators of `startWarpTunnel`: the filesystem and
provisioner (for `load_or_register_warp`) plus `ManagedTunnel::connect` and
`ManagedTunnel::netstack`. -/
structure TunnelEnv where
  fs : Fs
  prov : Provisioner
  connect : WireGuardConfig → Except String ManagedTunnel
  netstackOf : ManagedTunnel → NetStack

/-- The bridged async block of `startWarpTunnel` (lines 335-348):
load-or-register credentials, connect the managed tunnel, extract the
network stack. -/
def startTask (env : TunnelEnv) : Except TunnelError ActiveTunnel :=
  match load_or_register_warp env.fs env.prov with
  | .error e => .error e
  | .ok (config, _credentials) =>
    match env.connect config with
    | .error e => .error (.ConnectionFailed e)
    | .ok tunnel => .ok { tunnel := tunnel, netstack := env.netstackOf tunnel }

/-- Outcome of a JNI call that returns an integer code: the returned value,
the exception thrown at the boundary (if any), and the global state after the
call. -/
structure JniIntResult where
  ret : Int
  thrown : Option String
  state : GlobalStateM
deriving DecidableEq

/-- `Java_codes_dreaming_wireguard_jni_Native_startWarpTunnel`
(lines 311-362), after string marshalling (which is outside the core): if a
session is already installed return `Ready`; otherwise run the start task and
either install the session (`Ready`) or throw and return `Failed`. -/
def startWarpTunnel (env : TunnelEnv) (st : GlobalStateM) : JniIntResult :=
  if st.tunnel.isSome then
    { ret := TunnelStateReady, thrown := none, state := st }
  else
    match startTask env with
    | .ok activeTunnel =>
      { ret := TunnelStateReady, thrown := none,
        state := { st with tunnel := some activeTunnel } }
    | .error e =>
      { ret := TunnelStateFailed,
        thrown := some ("Failed to start tunnel: " ++ e.msg), state := st }

/-- `Java_codes_dreaming_wireguard_jni_Native_tunnelState` (lines 368-377):
`Ready` if a session is installed, else `Stopped`. -/
def tunnelState (st : GlobalStateM) : Int :=
  match st.tunnel with
  | some _ => TunnelStateReady
  | none => TunnelStateStopped

/-- The connection-draining loop of `shutdownTunnel` (lines 388-401):
snapshot the registry's keys, then remove each key in turn. -/
def drainConnections (m : ConnectionManager) : ConnectionManager :=
  (m.connections.map (·.1)).foldl (fun acc h => (acc.remove h).2) m

/-- `Java_codes_dreaming_wireguard_jni_Native_shutdownTunnel`
(lines 381-420): drain every registry entry (shutting each connection down on
the runtime — an external effect), then take the session out of the global
state and shut it down.  Never throws. -/
def shutdownTunnel (st : GlobalStateM) : GlobalStateM :=
  { tunnel := none, connections := drainConnections st.connections }

/-- External collaborators of `tcpConnect`: `SocketAddr` parsing and
`TcpConnection::connect`. -/
structure ConnectEnv where
  parseAddr : String → Except String SocketAddr
  connectTcp : NetStack → SocketAddr → Except String TcpConnection

/-- The bridged async block of `tcpConnect` (lines 459-469): parse
`"host:port"` as a socket address, then open the connection through the
network stack. -/
def tcpConnectTask (cenv : ConnectEnv) (ns : NetStack) (addrStr : String) :
    Except TunnelError TcpConnection :=
  match cenv.parseAddr addrStr with
  | .error e =>
    .error (.ConnectionFailed ("Invalid address " ++ addrStr ++ ": " ++ e))
  | .ok addr =>
    match cenv.connectTcp ns addr with
    | .error e => .error (.ConnectionFailed e)
    | .ok conn => .ok conn

/-- `Java_codes_dreaming_wireguard_jni_Native_tcpConnect` (lines 433-482),
after string marshalling: require a session (else throw and return −1), run
the bridged connect task, and only on success insert into the registry and
return the fresh handle.  The `timeoutMs` argument is accepted but never
read (the Rust parameter is `_timeout_ms`). -/
def tcpConnect (cenv : ConnectEnv) (st : GlobalStateM) (host : String)
    (port : Int) (_timeout_ms : Int) : JniIntResult :=
  match st.netstack with
  | .error e =>
    { ret := -1, thrown := some ("Tunnel not available: " ++ e.msg), state := st }
  | .ok ns =>
    let addrStr := host ++ ":" ++ toString port
    match tcpConnectTask cenv ns addrStr with
    | .ok conn =>
      let (handle, cm) := st.connections.insert conn
      { ret := handle, thrown := none, state := { st with connections := cm } }
    | .error e =>
      { ret := -1, thrown := some ("Connection failed: " ++ e.msg), state := st }

/-- Read oracle: `conn.read(&mut rust_buf)` takes the buffer's initial
contents and yields the byte count together with the buffer's contents after
the call (same length), or an error string. -/
structure ReadEnv where
  read : TcpConnection → List Nat → Except String (Nat × List Nat)

/-- Outcome of `tcpRead`: the returned count, the exception thrown (if any),
and the caller's byte buffer after the call. -/
structure JniReadResult where
  ret : Int
  thrown : Option String
  buf : List Nat
deriving DecidableEq

/-- `Java_codes_dreaming_wireguard_jni_Native_tcpRead` (lines 490-556): look
up the handle (absent ⇒ throw, −1); allocate a zeroed scratch buffer of the
Java buffer's capacity and perform the bridged read; on `Ok(0)` return 0
untouched (EOF); on `Ok(n)` copy the first `n` scratch bytes into the Java
buffer starting at offset 0 and return `n`; on error throw and return −1. -/
def tcpRead (renv : ReadEnv) (st : GlobalStateM) (handle : Int)
    (buffer : List Nat) : JniReadResult :=
  match st.connections.get handle with
  | none =>
    { ret := -1, thrown := some ("Invalid handle: " ++ toString handle),
      buf := buffer }
  | some conn =>
    match renv.read conn (List.replicate buffer.length 0) with
    | .ok (0, _) => { ret := 0, thrown := none, buf := buffer }
    | .ok (n, rustBuf) =>
      { ret := (n : Int), thrown := none,
        buf := rustBuf.take n ++ buffer.drop n }
    | .error e =>
      { ret := -1, thrown := some ("Read error: " ++ e), buf := buffer }

/-- A registry operation along a process-lifetime trace: a `tcpConnect`
insertion, a `tcpClose`/single removal, or the bulk drain performed by
`shutdownTunnel` (which never touches the handle counter). -/
inductive RegOp where
  | ins (conn : TcpConnection)
  | rem (handle : Int)
  | drainAll
deriving DecidableEq

/-- Run a trace of registry operations, collecting the handles returned by
the `insert` calls in order. -/
def runOps (m : ConnectionManager) : List RegOp → ConnectionManager × List Int
  | [] => (m, [])
  | RegOp.ins conn :: rest =>
    let r := m.insert conn
    let res := runOps r.2 rest
    (res.1, r.1 :: res.2)
  | RegOp.rem h :: rest => runOps (m.remove h).2 rest
  | RegOp.drainAll :: rest => runOps (drainConnections m) rest

/-- Number of `insert` operations in a trace. -/
def insCount : List RegOp → Nat
  | [] => 0
  | RegOp.ins _ :: rest => insCount rest + 1
  | RegOp.rem _ :: rest => insCount rest
  | RegOp.drainAll :: rest => insCount rest

/-- The handles returned by the inserts of a trace run from the fresh
registry (`ConnectionManager::new`, counter at 1). -/
def emittedHandles (ops : List RegOp) : List Int :=
  (runOps ConnectionManager.new ops).2

/-! Concrete sample values, used by the witness theorems. -/

def sampleCreds : WarpCredentials := ⟨0⟩

/-- A provisioner-returned config with an MTU different from 1420, to
exercise the override. -/
def sampleConfig : WireGuardConfig := { mtu := some 1280, rest := 7 }

/-- A filesystem on which every operation succeeds and the credential file
exists. -/
def fsOk : Fs :=
  { pathExists := true
    readToString := .ok "credsfile"
    parseCreds := fun _ => .ok sampleCreds
    parentDir := some ()
    createDirAll := .ok ()
    serializeCreds := fun _ => .ok "json"
    writeFile := fun _ => .ok () }

/-- A filesystem with no credential file and a failing write. -/
def fsSaveFail : Fs :=
  { fsOk with pathExists := false, writeFile := fun _ => .error "disk" }

def provOk : Provisioner :=
  { get_config := fun _ => .ok sampleConfig
    register := .ok (sampleConfig, sampleCreds) }

def sampleTunnel : ManagedTunnel := ⟨0⟩

def sampleStack : NetStack := ⟨0⟩

def sampleConn : TcpConnection := ⟨0⟩

def sampleActive : ActiveTunnel := { tunnel := sampleTunnel, netstack := sampleStack }

def envOk : TunnelEnv :=
  { fs := fsOk, prov := provOk
    connect := fun _ => .ok sampleTunnel
    netstackOf := fun _ => sampleStack }

/-- An environment whose transport establishment fails. -/
def envConnectFail : TunnelEnv :=
  { envOk with connect := fun _ => .error "refused" }

/-- Global state with no session and an empty registry. -/
def stEmpty : GlobalStateM := { tunnel := none, connections := ConnectionManager.new }

/-- Global state with an installed session and an empty registry. -/
def stReady : GlobalStateM :=
  { tunnel := some sampleActive, connections := ConnectionManager.new }

/-- Global state with an installed session and one registered connection
under handle 1. -/
def stWithConn : GlobalStateM :=
  { tunnel := some sampleActive
    connections := { connections := [(1, sampleConn)], nextHandle := 2 } }

/-- A connect environment whose address parse fails. -/
def cenvParseFail : ConnectEnv :=
  { parseAddr := fun _ => .error "bad", connectTcp := fun _ _ => .error "nope" }

/-- A read oracle that reads two bytes (5 and 6) into the scratch buffer. -/
def renvTwoBytes : ReadEnv :=
  { read := fun _ b => .ok (2, 5 :: 6 :: b.drop 2) }

/-- A sample trace: three inserts interleaved with a removal and a bulk
drain. -/
def opsSample : List RegOp :=
  [RegOp.ins sampleConn, RegOp.rem 1, RegOp.ins sampleConn,
   RegOp.drainAll, RegOp.ins sampleConn]

/-! Helper lemmas. -/

theorem save_credentials_error_is_persistence (fs : Fs) (creds : WarpCredentials)
    (e : TunnelError) (h : save_credentials fs creds = .error e) :
    ∃ s, e = TunnelError.CredentialPersistence s := by
  unfold save_credentials at h
  repeat' split at h
  all_goals cases h
  all_goals exact ⟨_, rfl⟩

/-! Claim C1. -/

/-- Claim C1: every successful result of `load_or_register_warp`, whether it
came from the load-existing-credentials path or from the fresh-registration
path, carries `mtu = some 1420`, regardless of what the provisioner's
`get_config` or `register` returned. -/
theorem mtu_always_1420 (fs : Fs) (prov : Provisioner)
    (config : WireGuardConfig) (credentials : WarpCredentials)
    (h : load_or_register_warp fs prov = .ok (config, credentials)) :
    config.mtu = some 1420 := by
  simp only [load_or_register_warp, registerNewDevice] at h
  repeat' split at h
  all_goals cases h
  all_goals rfl

/-- Witness for C1: a concrete environment (file present, provisioner
returning MTU 1280) on which the load path succeeds, with the MTU overridden
to 1420. -/
theorem mtu_always_1420_witness :
    load_or_register_warp fsOk provOk =
      .ok ({ sampleConfig with mtu := some 1420 }, sampleCreds) ∧
    ({ sampleConfig with mtu := some 1420 } : WireGuardConfig).mtu = some 1420 :=
  ⟨rfl, mtu_always_1420 fsOk provOk _ sampleCreds rfl⟩

/-! Claim C2. -/

/-- Claim C2: `load_or_register_warp` follows exactly the specified
algorithm (it coincides with `credential_acquisition_spec`, written from the
spec's words, on every environment), and a persistence failure after a
successful registration fails the registration path with that
`CredentialPersistence` error. -/
theorem load_or_register_follows_spec (fs : Fs) (prov : Provisioner) :
    load_or_register_warp fs prov = credential_acquisition_spec fs prov ∧
    (∀ config creds e, prov.register = .ok (config, creds) →
      save_credentials fs creds = .error e →
      registerNewDevice fs prov = .error e ∧
      ∃ s, e = TunnelError.CredentialPersistence s) := by
  constructor
  · simp only [load_or_register_warp, credential_acquisition_spec,
      registerNewDevice, WIREGUARD_MTU]
    repeat' split
    all_goals simp_all
  · intro config creds e hreg hsave
    refine ⟨?_, save_credentials_error_is_persistence fs creds e hsave⟩
    simp only [registerNewDevice, hreg, hsave]

/-- Witness for C2: with the credential file absent and the write failing,
registration succeeds but persistence fails, and the operation fails with
that `CredentialPersistence` error. -/
theorem load_or_register_follows_spec_witness :
    load_or_register_warp fsSaveFail provOk =
      credential_acquisition_spec fsSaveFail provOk ∧
    registerNewDevice fsSaveFail provOk =
      .error (TunnelError.CredentialPersistence "Failed to write: disk") ∧
    ∃ s, TunnelError.CredentialPersistence "Failed to write: disk" =
      TunnelError.CredentialPersistence s :=
  ⟨(load_or_register_follows_spec fsSaveFail provOk).1,
    (load_or_register_follows_spec fsSaveFail provOk).2 sampleConfig sampleCreds
      (TunnelError.CredentialPersistence "Failed to write: disk") rfl rfl⟩

/-! Claim C3: the handle counter.

`next_handle` is an `AtomicI64` whose `fetch_add(1, SeqCst)` wraps on
overflow, so the counter's trajectory is `wrap64 (1 + k)` after `k`
inserts. -/

theorem wrap64_wrap64_add (a b : Int) : wrap64 (wrap64 a + b) = wrap64 (a + b) := by
  unfold wrap64
  omega

theorem wrap64_eq_self {x : Int} (h1 : -9223372036854775808 ≤ x)
    (h2 : x < 9223372036854775808) : wrap64 x = x := by
  unfold wrap64
  omega

theorem remove_nextHandle (m : ConnectionManager) (h : Int) :
    ((m.remove h).2).nextHandle = m.nextHandle := rfl

theorem foldl_remove_nextHandle (ks : List Int) :
    ∀ m : ConnectionManager,
      (ks.foldl (fun acc h => (acc.remove h).2) m).nextHandle = m.nextHandle := by
  induction ks with
  | nil => intro m; rfl
  | cons k ks ih =>
    intro m
    simpa using ih (m.remove k).2

theorem drain_nextHandle (m : ConnectionManager) :
    (drainConnections m).nextHandle = m.nextHandle := by
  unfold drainConnections
  exact foldl_remove_nextHandle _ m

/-- Trajectory of the counter and of the emitted handles along any trace:
starting from a registry whose counter holds `wrap64 x`, after the trace the
counter holds `wrap64 (x + insCount ops)` and the inserts returned
`wrap64 (x + k)` for `k = 0, 1, …`. -/
theorem runOps_spec (ops : List RegOp) :
    ∀ (m : ConnectionManager) (x : Int), m.nextHandle = wrap64 x →
      (runOps m ops).1.nextHandle = wrap64 (x + insCount ops) ∧
      (runOps m ops).2 =
        (List.range (insCount ops)).map (fun k : Nat => wrap64 (x + (k : Int))) := by
  induction ops with
  | nil =>
    intro m x hm
    simp [runOps, insCount, hm]
  | cons op rest ih =>
    intro m x hm
    cases op with
    | ins conn =>
      have hm' : (m.insert conn).2.nextHandle = wrap64 (x + 1) := by
        simp only [ConnectionManager.insert, hm]
        exact wrap64_wrap64_add x 1
      obtain ⟨ihc, ihh⟩ := ih (m.insert conn).2 (x + 1) hm'
      constructor
      · simp only [runOps, insCount]
        rw [ihc]
        congr 1
        push_cast
        ring
      · simp only [runOps, insCount]
        rw [ihh]
        have hhd : (m.insert conn).1 = wrap64 x := hm
        rw [hhd]
        rw [List.range_succ_eq_map, List.map_cons, List.map_map]
        refine List.cons_eq_cons.mpr ⟨by norm_num, ?_⟩
        apply List.map_congr_left
        intro a _
        simp only [Function.comp_apply]
        congr 1
        push_cast
        ring
    | rem h =>
      have hm' : ((m.remove h).2).nextHandle = wrap64 x := by
        rw [remove_nextHandle]; exact hm
      obtain ⟨ihc, ihh⟩ := ih (m.remove h).2 x hm'
      exact ⟨by simpa [runOps, insCount] using ihc, by simpa [runOps, insCount] using ihh⟩
    | drainAll =>
      have hm' : (drainConnections m).nextHandle = wrap64 x := by
        rw [drain_nextHandle]; exact hm
      obtain ⟨ihc, ihh⟩ := ih (drainConnections m) x hm'
      exact ⟨by simpa [runOps, insCount] using ihc, by simpa [runOps, insCount] using ihh⟩

theorem new_nextHandle_wrap : ConnectionManager.new.nextHandle = wrap64 1 := by
  unfold ConnectionManager.new wrap64
  norm_num

/-- Closed form of the handles emitted along any trace from the fresh
registry. -/
theorem emittedHandles_eq (ops : List RegOp) :
    emittedHandles ops =
      (List.range (insCount ops)).map (fun k : Nat => wrap64 (1 + (k : Int))) :=
  (runOps_spec ops ConnectionManager.new 1 new_nextHandle_wrap).2

theorem insCount_replicate (n : Nat) (conn : TcpConnection) :
    insCount (List.replicate n (RegOp.ins conn)) = n := by
  induction n with
  | zero => rfl
  | succ n ih => simp [List.replicate_succ, insCount, ih]

/-- Counterexample for C3 as stated: on the trace consisting of 2^63 inserts
the counter wraps, and the last insert returns the negative handle −2^63 —
so over unboundedly long process lifetimes the claim's universal positivity
(and hence monotonicity) fails on the code, whose `fetch_add` wraps. -/
theorem handle_positive_counterexample :
    (-9223372036854775808 : Int) ∈
      emittedHandles
        (List.replicate 9223372036854775808 (RegOp.ins sampleConn)) ∧
    ¬ (0 < (-9223372036854775808 : Int)) := by
  constructor
  · rw [emittedHandles_eq, insCount_replicate]
    refine List.mem_map.mpr ⟨9223372036854775807, List.mem_range.mpr (by omega), ?_⟩
    norm_num [wrap64]
  · decide

/-- Claim C3 (amended: provided at most 2^63 − 1 inserts occur over the
process lifetime, so that the i64 counter never overflows): along any trace
of registry operations — inserts, removals and bulk drains, the latter two
never resetting the counter — the handles returned by the inserts are
exactly 1, 2, 3, …; hence each is strictly positive, the first is 1, they
are strictly increasing, and none repeats. -/
theorem handles_unique_positive (ops : List RegOp)
    (hcnt : insCount ops ≤ 9223372036854775807) :
    emittedHandles ops =
      (List.range (insCount ops)).map (fun k : Nat => 1 + (k : Int)) ∧
    (∀ x ∈ emittedHandles ops, 0 < x) ∧
    List.Pairwise (· < ·) (emittedHandles ops) ∧
    (emittedHandles ops).Nodup ∧
    (0 < insCount ops → (emittedHandles ops).head? = some 1) := by
  have hclosed : emittedHandles ops =
      (List.range (insCount ops)).map (fun k : Nat => 1 + (k : Int)) := by
    rw [emittedHandles_eq]
    apply List.map_congr_left
    intro k hk
    have hk' : k < insCount ops := List.mem_range.mp hk
    apply wrap64_eq_self <;> omega
  refine ⟨hclosed, ?_, ?_, ?_, ?_⟩
  · intro x hx
    rw [hclosed] at hx
    obtain ⟨k, _, rfl⟩ := List.mem_map.mp hx
    omega
  · rw [hclosed, List.pairwise_map]
    refine List.Pairwise.imp ?_ (List.pairwise_lt_range (insCount ops))
    intro a b hab
    show 1 + (a : Int) < 1 + (b : Int)
    omega
  · rw [hclosed]
    refine List.Nodup.map ?_ (List.nodup_range (insCount ops))
    intro a b hab
    have hab' : 1 + (a : Int) = 1 + (b : Int) := hab
    omega
  · intro hpos
    rw [hclosed]
    obtain ⟨n, hn⟩ : ∃ n, insCount ops = n + 1 := ⟨insCount ops - 1, by omega⟩
    rw [hn, List.range_succ_eq_map]
    simp

/-- Witness for the amended C3: a concrete trace of three inserts with an
interleaved removal and drain emits exactly the handles 1, 2, 3. -/
theorem handles_unique_positive_witness :
    insCount opsSample ≤ 9223372036854775807 ∧
    (emittedHandles opsSample =
      (List.range (insCount opsSample)).map (fun k : Nat => 1 + (k : Int)) ∧
    (∀ x ∈ emittedHandles opsSample, 0 < x) ∧
    List.Pairwise (· < ·) (emittedHandles opsSample) ∧
    (emittedHandles opsSample).Nodup ∧
    (0 < insCount opsSample → (emittedHandles opsSample).head? = some 1)) :=
  ⟨by decide, handles_unique_positive opsSample (by decide)⟩

/-! Claim C4. -/

/-- Claim C4: if a session is already installed, `startWarpTunnel` returns
`Ready` (2) without throwing and without modifying the global state — no new
session is constructed or installed and the existing session's configuration
is untouched, so calling start twice without an intervening stop leaves
exactly the first session installed. -/
theorem start_idempotent (env : TunnelEnv) (st : GlobalStateM)
    (h : st.tunnel.isSome = true) :
    startWarpTunnel env st =
      { ret := TunnelStateReady, thrown := none, state := st } := by
  simp [startWarpTunnel, h]

/-- Witness for C4: with a session installed, start is a no-op reporting
`Ready`. -/
theorem start_idempotent_witness :
    stReady.tunnel.isSome = true ∧
    startWarpTunnel envOk stReady =
      { ret := TunnelStateReady, thrown := none, state := stReady } :=
  ⟨rfl, start_idempotent envOk stReady rfl⟩

/-! Claim C5. -/

/-- Claim C5: when no session is installed and the bridged start task fails
(credential load/registration or transport establishment), `startWarpTunnel`
returns `Failed` (3), throws a descriptive exception, and leaves the global
state unchanged — no session is installed, so a subsequent `tunnelState`
query returns `Stopped` (0). -/
theorem start_failure_keeps_stopped (env : TunnelEnv) (st : GlobalStateM)
    (e : TunnelError) (hnone : st.tunnel = none)
    (herr : startTask env = .error e) :
    startWarpTunnel env st =
      { ret := TunnelStateFailed,
        thrown := some ("Failed to start tunnel: " ++ e.msg), state := st } ∧
    (startWarpTunnel env st).state.tunnel = none ∧
    tunnelState (startWarpTunnel env st).state = TunnelStateStopped := by
  have hmain : startWarpTunnel env st =
      { ret := TunnelStateFailed,
        thrown := some ("Failed to start tunnel: " ++ e.msg), state := st } := by
    simp [startWarpTunnel, hnone, herr]
  refine ⟨hmain, ?_, ?_⟩
  · rw [hmain]
    exact hnone
  · rw [hmain]
    simp [tunnelState, hnone, TunnelStateStopped]

/-- Witness for C5: a concrete environment whose transport establishment is
refused leaves the empty state stopped. -/
theorem start_failure_keeps_stopped_witness :
    stEmpty.tunnel = none ∧
    startTask envConnectFail = .error (.ConnectionFailed "refused") ∧
    (startWarpTunnel envConnectFail stEmpty =
      { ret := TunnelStateFailed,
        thrown := some ("Failed to start tunnel: " ++
          (TunnelError.ConnectionFailed "refused").msg),
        state := stEmpty } ∧
    (startWarpTunnel envConnectFail stEmpty).state.tunnel = none ∧
    tunnelState (startWarpTunnel envConnectFail stEmpty).state =
      TunnelStateStopped) :=
  ⟨rfl, rfl,
    start_failure_keeps_stopped envConnectFail stEmpty
      (.ConnectionFailed "refused") rfl rfl⟩

/-! Claim C6. -/

theorem remove_connections_eq_filter (m : ConnectionManager) (h : Int) :
    ((m.remove h).2).connections =
      m.connections.filter (fun p => decide (p.1 ≠ h)) := rfl

theorem foldl_remove_empties (ks : List Int) :
    ∀ m : ConnectionManager, (∀ p ∈ m.connections, p.1 ∈ ks) →
      (ks.foldl (fun acc h => (acc.remove h).2) m).connections = [] := by
  induction ks with
  | nil =>
    intro m hm
    exact List.eq_nil_iff_forall_not_mem.mpr fun p hp => List.not_mem_nil p.1 (hm p hp)
  | cons k ks ih =>
    intro m hm
    simp only [List.foldl_cons]
    apply ih
    intro p hp
    rw [remove_connections_eq_filter] at hp
    have hmem := List.mem_filter.mp hp
    have h1 := hm p hmem.1
    have h2 : p.1 ≠ k := by simpa using hmem.2
    simp only [List.mem_cons] at h1
    tauto

theorem drain_empties (m : ConnectionManager) :
    (drainConnections m).connections = [] := by
  unfold drainConnections
  apply foldl_remove_empties
  intro p hp
  exact List.mem_map_of_mem _ hp

/-- Claim C6: after `shutdownTunnel` the connection registry is empty, no
session is installed (`tunnelState` reports `Stopped`), and the handle
counter is NOT reset.  The statement holds for every pre-state, in
particular for states with any number of open connections and for states
with no session at all (the no-session case is a safe no-op on an already
stopped tunnel). -/
theorem shutdown_drains_and_stops (st : GlobalStateM) :
    (shutdownTunnel st).connections.connections = [] ∧
    (shutdownTunnel st).tunnel = none ∧
    tunnelState (shutdownTunnel st) = TunnelStateStopped ∧
    (shutdownTunnel st).connections.nextHandle = st.connections.nextHandle :=
  ⟨drain_empties st.connections, rfl, rfl, drain_nextHandle st.connections⟩

/-! Claim C7. -/

/-- Claim C7: `tcpConnect` with no session installed returns −1, throws the
`NotInitialized`-derived message, and leaves the state (in particular the
registry) unchanged; and more generally any failure of the bridged connect
task (endpoint parse or transport open) returns −1 and leaves the state
unchanged — a registry handle is allocated only after a successful
connect. -/
theorem tcpConnect_failure_no_leak (cenv : ConnectEnv) (st : GlobalStateM)
    (host : String) (port : Int) (t : Int) :
    (st.tunnel = none →
      tcpConnect cenv st host port t =
        { ret := -1,
          thrown := some ("Tunnel not available: " ++ TunnelError.NotInitialized.msg),
          state := st }) ∧
    (∀ a e, st.tunnel = some a →
      tcpConnectTask cenv a.netstack (host ++ ":" ++ toString port) = .error e →
      tcpConnect cenv st host port t =
        { ret := -1, thrown := some ("Connection failed: " ++ e.msg),
          state := st }) := by
  constructor
  · intro hnone
    simp [tcpConnect, GlobalStateM.netstack, hnone]
  · intro a e hsome herr
    simp [tcpConnect, GlobalStateM.netstack, hsome, herr]

/-- Witness for C7: with no session, a connect returns −1 with the
not-initialized message and no registry change; with a session but a failing
address parse, it returns −1 with the connection-failed message and no
registry change. -/
theorem tcpConnect_failure_no_leak_witness :
    stEmpty.tunnel = none ∧
    tcpConnect cenvParseFail stEmpty "10.0.0.1" 80 0 =
      { ret := -1,
        thrown := some ("Tunnel not available: " ++ TunnelError.NotInitialized.msg),
        state := stEmpty } ∧
    tcpConnect cenvParseFail stReady "10.0.0.1" 80 0 =
      { ret := -1,
        thrown := some ("Connection failed: " ++
          (TunnelError.ConnectionFailed
            ("Invalid address " ++ ("10.0.0.1" ++ ":" ++ toString (80 : Int)) ++
              ": " ++ "bad")).msg),
        state := stReady } :=
  ⟨rfl,
    (tcpConnect_failure_no_leak cenvParseFail stEmpty "10.0.0.1" 80 0).1 rfl,
    (tcpConnect_failure_no_leak cenvParseFail stReady "10.0.0.1" 80 0).2
      sampleActive _ rfl rfl⟩

/-! Claim C8. -/

theorem find?_filter_ne_none (l : List (Int × TcpConnection)) (h : Int) :
    (l.filter (fun p => decide (p.1 ≠ h))).find? (fun p => decide (p.1 = h)) = none := by
  apply List.find?_eq_none.mpr
  intro p hp
  have := (List.mem_filter.mp hp).2
  simp_all

/-- Claim C8: once `remove h` has returned a connection, a subsequent
`get h` returns absent and a subsequent `remove h` returns absent. -/
theorem remove_then_get_absent (m : ConnectionManager) (h : Int)
    (conn : TcpConnection) (_hr : (m.remove h).1 = some conn) :
    ((m.remove h).2).get h = none ∧ (((m.remove h).2).remove h).1 = none := by
  refine ⟨?_, ?_⟩ <;>
    simp [ConnectionManager.get, ConnectionManager.remove, find?_filter_ne_none]

/-- Witness for C8 on a registry holding one connection under handle 1. -/
theorem remove_then_get_absent_witness :
    (stWithConn.connections.remove 1).1 = some sampleConn ∧
    ((stWithConn.connections.remove 1).2).get 1 = none ∧
    (((stWithConn.connections.remove 1).2).remove 1).1 = none :=
  ⟨rfl,
    (remove_then_get_absent stWithConn.connections 1 sampleConn rfl).1,
    (remove_then_get_absent stWithConn.connections 1 sampleConn rfl).2⟩

/-! Claim C9. -/

/-- Claim C9: the outcome of `tcpConnect` (returned handle or error, thrown
exception, resulting state) is independent of the `timeoutMs` argument: the
Rust binding declares it `_timeout_ms` and never reads it, so two calls
identical except for the timeout coincide. -/
theorem tcpConnect_ignores_timeout (cenv : ConnectEnv) (st : GlobalStateM)
    (host : String) (port : Int) (t1 t2 : Int) :
    tcpConnect cenv st host port t1 = tcpConnect cenv st host port t2 := rfl

/-! Claim C10. -/

theorem tcpRead_ok_succ (renv : ReadEnv) (st : GlobalStateM) (handle : Int)
    (buffer : List Nat) (conn : TcpConnection) (m : Nat) (rustBuf : List Nat)
    (hget : st.connections.get handle = some conn)
    (hread : renv.read conn (List.replicate buffer.length 0) = .ok (m + 1, rustBuf)) :
    tcpRead renv st handle buffer =
      { ret := ((m + 1 : Nat) : Int), thrown := none,
        buf := rustBuf.take (m + 1) ++ buffer.drop (m + 1) } := by
  unfold tcpRead
  rw [hget]
  dsimp only
  rw [hread]
  rfl

theorem tcpRead_ok_zero (renv : ReadEnv) (st : GlobalStateM) (handle : Int)
    (buffer : List Nat) (conn : TcpConnection) (rustBuf : List Nat)
    (hget : st.connections.get handle = some conn)
    (hread : renv.read conn (List.replicate buffer.length 0) = .ok (0, rustBuf)) :
    tcpRead renv st handle buffer = { ret := 0, thrown := none, buf := buffer } := by
  unfold tcpRead
  rw [hget]
  dsimp only
  rw [hread]

/-- Claim C10: on a successful `tcpRead` returning `n > 0`, exactly the
first `n` positions of the caller's buffer are overwritten with the bytes
the connection read (the buffer keeps its capacity, its first `n` bytes are
the read bytes, its remainder from position `n` on is unchanged); on an
end-of-stream result (`0`) the buffer is returned untouched; and whenever
the call returns −1 (invalid handle or read error) the buffer is
untouched. -/
theorem tcpRead_frame (renv : ReadEnv) (st : GlobalStateM) (handle : Int)
    (buffer : List Nat) :
    (∀ conn n rustBuf,
      st.connections.get handle = some conn →
      renv.read conn (List.replicate buffer.length 0) = .ok (n, rustBuf) →
      0 < n → n ≤ buffer.length → rustBuf.length = buffer.length →
      (tcpRead renv st handle buffer).ret = n ∧
      (tcpRead renv st handle buffer).buf.length = buffer.length ∧
      (tcpRead renv st handle buffer).buf.take n = rustBuf.take n ∧
      (tcpRead renv st handle buffer).buf.drop n = buffer.drop n) ∧
    (∀ conn rustBuf,
      st.connections.get handle = some conn →
      renv.read conn (List.replicate buffer.length 0) = .ok (0, rustBuf) →
      tcpRead renv st handle buffer = { ret := 0, thrown := none, buf := buffer }) ∧
    ((tcpRead renv st handle buffer).ret = -1 →
      (tcpRead renv st handle buffer).buf = buffer) := by
  refine ⟨?_, ?_, ?_⟩
  · intro conn n rustBuf hget hread hn hnle hlen
    obtain ⟨m, rfl⟩ : ∃ m, n = m + 1 := ⟨n - 1, by omega⟩
    have hres := tcpRead_ok_succ renv st handle buffer conn m rustBuf hget hread
    have htake : (rustBuf.take (m + 1)).length = m + 1 := by
      rw [List.length_take]
      omega
    refine ⟨by rw [hres], ?_, ?_, ?_⟩
    · rw [hres]
      simp only [List.length_append, List.length_take, List.length_drop]
      omega
    · rw [hres]
      exact List.take_left' htake
    · rw [hres]
      exact List.drop_left' htake
  · intro conn rustBuf hget hread
    exact tcpRead_ok_zero renv st handle buffer conn rustBuf hget hread
  · rcases hget : st.connections.get handle with _ | conn
    · intro _
      simp [tcpRead, hget]
    · rcases hread : renv.read conn (List.replicate buffer.length 0) with e | p
      · intro _
        simp [tcpRead, hget, hread]
      · rcases p with ⟨n, rustBuf⟩
        cases n with
        | zero =>
          intro _
          rw [tcpRead_ok_zero renv st handle buffer conn rustBuf hget hread]
        | succ m =>
          intro habs
          rw [tcpRead_ok_succ renv st handle buffer conn m rustBuf hget hread] at habs
          exfalso
          dsimp only at habs
          omega

/-- Witness for C10: a registry with one connection under handle 1, a read
oracle that reads the two bytes 5, 6, and the caller buffer `[9, 9, 9, 9]`:
the call returns 2 and the buffer becomes `[5, 6, 9, 9]`. -/
theorem tcpRead_frame_witness :
    stWithConn.connections.get 1 = some sampleConn ∧
    renvTwoBytes.read sampleConn
        (List.replicate ([9, 9, 9, 9] : List Nat).length 0) =
      .ok (2, [5, 6, 0, 0]) ∧
    ((tcpRead renvTwoBytes stWithConn 1 [9, 9, 9, 9]).ret = 2 ∧
      (tcpRead renvTwoBytes stWithConn 1 [9, 9, 9, 9]).buf.length =
        ([9, 9, 9, 9] : List Nat).length ∧
      (tcpRead renvTwoBytes stWithConn 1 [9, 9, 9, 9]).buf.take 2 =
        ([5, 6, 0, 0] : List Nat).take 2 ∧
      (tcpRead renvTwoBytes stWithConn 1 [9, 9, 9, 9]).buf.drop 2 =
        ([9, 9, 9, 9] : List Nat).drop 2) :=
  ⟨rfl, rfl,
    (tcpRead_frame renvTwoBytes stWithConn 1 [9, 9, 9, 9]).1 sampleConn 2
      [5, 6, 0, 0] rfl rfl (by decide) (by decide) rfl⟩

end WireguardTunnel
